import Mathlib

/-!
Verification of the sentiment correction, aggregation, and alerting pipeline
of the `lagos-security-sentiment` repository.

The Python code is shallowly embedded: floats are modelled by `ℚ`, Python
dictionaries by association lists, database rows by structures, and the
fallible store reads by `Except`.  Each embedded definition carries a doc
comment naming the source function it was translated from.
-/

namespace LagosSentiment

/-! ## Generic helpers shared by several components -/

/-- Arithmetic mean of a list of rationals (`pandas .mean()` / `sum(xs)/len(xs)`
over Python floats, modelled over `ℚ`; the empty list gives `0/0 = 0`). -/
def meanQ (l : List ℚ) : ℚ := l.sum / l.length

/-- Python `dict.get(k, d)` over an association list. -/
def lookupD (m : List (String × ℚ)) (k : String) (d : ℚ) : ℚ :=
  match m.find? (fun p => p.1 == k) with
  | some p => p.2
  | none => d

/-- Accumulator pass for `uniqueFirst`: keep the values not seen before. -/
def uniqueFirstAux (seen : List String) : List String → List String
  | [] => []
  | x :: xs =>
    if x ∈ seen then uniqueFirstAux seen xs
    else x :: uniqueFirstAux (x :: seen) xs

/-- Embeds `pandas.Series.unique`: the distinct values of a list in order of
first appearance (used by `df['location'].unique()` in the alert generator). -/
def uniqueFirst (l : List String) : List String := uniqueFirstAux [] l

/-! ## Bias corrector (`app/core/bias_corrector.py`, `app/config/settings.py`) -/

/-- Embeds `BiasConfig.adjustment_factors` default table from `app/config/settings.py`. -/
def adjustment_factors : List (String × ℚ) :=
  [("twitter", 7/10), ("facebook", 4/5), ("news", 3/5),
   ("government", 6/5), ("community", 1)]

/-- Embeds `BiasConfig.baseline_negativity` default table from `app/config/settings.py`. -/
def baseline_negativity : List (String × ℚ) :=
  [("twitter", -(7/20)), ("facebook", -(1/4)), ("news", -(9/20)),
   ("government", -(1/20)), ("community", -(3/20))]

/-- Embeds `BiasCorrector.adjust_sentiment` from `app/core/bias_corrector.py`. -/
def adjust_sentiment (raw_sentiment : ℚ) (source : String) : ℚ :=
  let adjustment_factor := lookupD adjustment_factors source 1
  let baseline := lookupD baseline_negativity source (-(1/5))
  let normalized := raw_sentiment - baseline
  let adjusted :=
    if raw_sentiment < 0 then normalized * adjustment_factor + baseline
    else normalized * (11/10) + baseline
  max (-1) (min 1 adjusted)

/-! ## Data model (`app/api/models.py`)

`SentimentData.timestamp` is modelled as a rational number of hours on an
abstract clock (Python uses `datetime`; only ordering and window arithmetic
matter to the verified code paths).  The database columns `id`/`created_at`
are not read by any verified query and are omitted. -/

/-- Embeds `SentimentData` from `app/api/models.py` (also a row of the
`sentiment_data` table). -/
structure SentimentData where
  source : String
  text : String
  raw_sentiment : ℚ
  adjusted_sentiment : ℚ
  location : String
  timestamp : ℚ
  confidence : ℚ
  category : String
  language : String
deriving DecidableEq

/-- Embeds `SecurityAlert` from `app/api/models.py` (generation timestamp is
wall-clock `datetime.now()` and is omitted from the embedding). -/
structure SecurityAlert where
  area : String
  message : String
  severity : String
  confidence : ℚ
  alert_type : String
deriving DecidableEq

/-! ## Alert generator (`app/core/alert_generator.py`) -/

/-- Embeds `AlertConfig.high_threshold` default from `app/config/settings.py`. -/
def high_threshold : ℚ := -(1/2)

/-- Embeds `AlertConfig.medium_threshold` default from `app/config/settings.py`. -/
def medium_threshold : ℚ := -(3/10)

/-- Embeds `AlertConfig.minimum_sources` default from `app/config/settings.py`. -/
def minimum_sources : ℕ := 3

/-- Embeds `pandas.value_counts(...).index[0]`: a value of maximal multiplicity,
ties resolved towards the first-encountered value (used for the dominant
category of a group). -/
def valueCountsMax (l : List String) : String :=
  match uniqueFirst l with
  | [] => ""
  | v :: vs => vs.foldl (fun best c => if l.count best < l.count c then c else best) v

/-- Embeds `AlertGenerator._generate_alert_message`. -/
def generate_alert_message (area : String) (category : String)
    (sentiment : ℚ) (source_count : ℕ) : String :=
  let intensity := if sentiment ≤ high_threshold then "significantly" else "moderately"
  if category = "traffic" then
    s!"Traffic-related complaints {intensity} increasing in {area} ({source_count} reports)"
  else if category = "crime" then
    s!"Crime-related concerns {intensity} elevated in {area} ({source_count} reports)"
  else if category = "law_enforcement" then
    s!"Law enforcement issues being {intensity} discussed in {area} ({source_count} reports)"
  else if category = "emergency" then
    s!"Emergency-related incidents {intensity} reported in {area} ({source_count} reports)"
  else if category = "general" then
    s!"General security sentiment {intensity} negative in {area} ({source_count} reports)"
  else
    s!"Security concerns detected in {area} ({source_count} reports)"

/-- The body of the per-area loop of `AlertGenerator.generate_alerts`:
the alert produced for one value of `df['location'].unique()` (or `none`
when the `continue` paths are taken). -/
def alertForArea (df : List SentimentData) (area : String) : Option SecurityAlert :=
  if area = "Unknown" then none
  else
    let area_data := df.filter (fun r => r.location = area)
    if area_data.length < minimum_sources then none
    else
      let avg_sentiment := meanQ (area_data.map (·.adjusted_sentiment))
      let confidence := meanQ (area_data.map (·.confidence))
      let primary_category := valueCountsMax (area_data.map (·.category))
      if avg_sentiment ≤ high_threshold then
        some { area := area
             , message := generate_alert_message area primary_category avg_sentiment area_data.length
             , severity := "high"
             , confidence := confidence
             , alert_type := primary_category }
      else if avg_sentiment ≤ medium_threshold then
        some { area := area
             , message := generate_alert_message area primary_category avg_sentiment area_data.length
             , severity := "medium"
             , confidence := confidence
             , alert_type := primary_category }
      else none

/-- Embeds `AlertGenerator.generate_alerts` from `app/core/alert_generator.py`:
one pass over the distinct areas of the batch, in order of first appearance. -/
def generate_alerts (sentiment_data : List SentimentData) : List SecurityAlert :=
  if sentiment_data = [] then []
  else (uniqueFirst (sentiment_data.map (·.location))).filterMap
    (alertForArea sentiment_data)

/-- Concrete record constructor used by the claim witnesses. -/
def mkRecord (loc : String) (adj : ℚ) (t : ℚ) : SentimentData :=
  { source := "twitter", text := "report", raw_sentiment := adj,
    adjusted_sentiment := adj, location := loc, timestamp := t,
    confidence := 7/10, category := "crime", language := "english" }

/-- Concrete batch for the alert-generator witness: two records in `"Lekki"`
(below the minimum-sources bar) and three in `"Yaba"` with mean adjusted
sentiment `-3/5 ≤ -1/2`. -/
def sampleBatch : List SentimentData :=
  [mkRecord "Lekki" (-(9/10)) 1, mkRecord "Lekki" (-1) 2,
   mkRecord "Yaba" (-(1/2)) 3, mkRecord "Yaba" (-(3/5)) 4,
   mkRecord "Yaba" (-(7/10)) 5]

/-! ## Text utilities (Python `in` on strings and `str.lower`) -/

/-- Does the first char list begin the second one? -/
def hasPre : List Char → List Char → Bool
  | [], _ => true
  | _ :: _, [] => false
  | a :: ps, b :: ss => a == b && hasPre ps ss

/-- Does `needle` occur contiguously inside the char list? -/
def hasSub (needle : List Char) : List Char → Bool
  | [] => needle.isEmpty
  | c :: t => hasPre needle (c :: t) || hasSub needle t

/-- Python `needle in hay` on strings (substring containment). -/
def strContains (hay needle : String) : Bool := hasSub needle.data hay.data

/-- Python `str.lower` (ASCII case folding; the keyword tables are ASCII). -/
def lowerStr (s : String) : String := String.mk (s.data.map Char.toLower)

/-- Python `any(word in text_lower for word in ws)`. -/
def anyKw (ws : List String) (text_lower : String) : Bool :=
  ws.any (fun w => strContains text_lower w)

/-- Python `sum(1 for keyword in ws if keyword in text_lower)`; an entry
listed twice in `ws` is counted twice, exactly as the generator expression. -/
def countKw (ws : List String) (text_lower : String) : ℕ :=
  (ws.filter (fun w => strContains text_lower w)).length

/-! ## Text classifier (`app/core/data_collector.py`, `app/utils/helpers.py`) -/

/-- Traffic keywords of `DataCollector.categorize_security_issue`. -/
def traffic_words : List String := ["traffic", "road", "accident", "jam"]

/-- Crime keywords of `DataCollector.categorize_security_issue`. -/
def crime_words : List String := ["crime", "theft", "robbery", "steal"]

/-- Law-enforcement keywords of `DataCollector.categorize_security_issue`. -/
def law_enforcement_words : List String := ["police", "law", "arrest"]

/-- Emergency keywords of `DataCollector.categorize_security_issue`. -/
def emergency_words : List String := ["emergency", "fire", "medical"]

/-- Embeds `DataCollector.categorize_security_issue` from `app/core/data_collector.py`:
five fixed keyword sets checked in a fixed priority order, first hit wins. -/
def categorize_security_issue (text : String) : String :=
  let text_lower := lowerStr text
  if anyKw traffic_words text_lower then "traffic"
  else if anyKw crime_words text_lower then "crime"
  else if anyKw law_enforcement_words text_lower then "law_enforcement"
  else if anyKw emergency_words text_lower then "emergency"
  else "general"

/-- Embeds `security_keywords['english']` default from `app/config/settings.py`. -/
def settings_english : List String :=
  ["security", "crime", "theft", "robbery", "traffic", "accident",
   "police", "safety", "emergency", "incident", "violence"]

/-- Embeds `security_keywords['pidgin']` default from `app/config/settings.py`. -/
def settings_pidgin : List String :=
  ["wahala", "gbege", "kasala", "palaba", "scatter", "burst"]

/-- Embeds `security_keywords['yoruba']` default from `app/config/settings.py`. -/
def settings_yoruba : List String :=
  ["ija", "ole", "wahala", "opolopo", "ewu"]

/-- Embeds `DataCollector.detect_language` from `app/core/data_collector.py`:
first-match variant over the settings keyword lists (any pidgin hit wins
outright; no counting). -/
def detect_language (text : String) : String :=
  let text_lower := lowerStr text
  if anyKw settings_pidgin text_lower then "pidgin"
  else if anyKw settings_yoruba text_lower then "yoruba"
  else "english"

/-- Embeds `DataCollector.is_security_related` from `app/core/data_collector.py`:
true iff any keyword of any settings list occurs (a single hit suffices). -/
def is_security_related (text : String) : Bool :=
  anyKw settings_english (lowerStr text) ||
    anyKw settings_pidgin (lowerStr text) ||
    anyKw settings_yoruba (lowerStr text)

/-- Pidgin indicator list of `helpers.detect_nigerian_language`. -/
def pidgin_indicators : List String :=
  ["wahala", "gbege", "kasala", "palaba", "dey", "wetin", "abi", "shey",
   "abeg", "comot", "naija", "naira", "oga", "madam", "pikin", "japa",
   "sabi", "waka", "gist", "hammer", "scatter"]

/-- Yoruba indicator list of `helpers.detect_nigerian_language` (the source
list repeats `"omo"` and `"eko"`; the duplicates are kept). -/
def yoruba_indicators : List String :=
  ["omo", "oko", "obinrin", "awa", "eyin", "won", "mi", "tire", "wa",
   "ile", "oja", "eko", "agba", "omo", "baba", "mama", "eko", "iya"]

/-- Embeds `helpers.detect_nigerian_language` from `app/utils/helpers.py`:
counting variant over the indicator lists. -/
def detect_nigerian_language (text : String) : String :=
  let text_lower := lowerStr text
  let pidgin_count := countKw pidgin_indicators text_lower
  let yoruba_count := countKw yoruba_indicators text_lower
  if pidgin_count > yoruba_count ∧ pidgin_count > 0 then "pidgin"
  else if yoruba_count > 0 then "yoruba"
  else "english"

/-- Embeds `'direct'` keyword list of `helpers.is_security_relevant`. -/
def security_keywords_direct : List String :=
  ["security", "crime", "theft", "robbery", "burglary", "violence",
   "police", "safety", "dangerous", "threat", "attack", "incident",
   "emergency", "accident", "fire", "medical", "ambulance"]

/-- Embeds `'traffic'` keyword list of `helpers.is_security_relevant`. -/
def security_keywords_traffic : List String :=
  ["traffic", "road", "highway", "bridge", "transport", "bus",
   "taxi", "okada", "keke", "danfo", "jam", "congestion"]

/-- Embeds `'locations'` keyword list of `helpers.is_security_relevant` (note that
`"road"` and `"bridge"` also appear in the `'traffic'` list). -/
def security_keywords_locations : List String :=
  ["street", "road", "avenue", "bridge", "market", "park",
   "station", "airport", "port", "hospital", "school"]

/-- Embeds `'nigerian'` keyword list of `helpers.is_security_relevant`. -/
def security_keywords_nigerian : List String :=
  ["naija", "lagos", "wahala", "gbege", "kasala", "palaba"]

/-- The `total_matches` accumulation of `helpers.is_security_relevant`:
per-category keyword hits summed over the four categories in dict order. -/
def total_matches (text : String) : ℕ :=
  let text_lower := lowerStr text
  countKw security_keywords_direct text_lower +
    countKw security_keywords_traffic text_lower +
    countKw security_keywords_locations text_lower +
    countKw security_keywords_nigerian text_lower

/-- Embeds `helpers.is_security_relevant` from `app/utils/helpers.py`:
relevant iff the per-category hit total is at least 2. -/
def is_security_relevant (text : String) : Bool := 2 ≤ total_matches text

/-- The distinct keyword strings of the 4-category table, for stating how a
text can contain exactly one distinct keyword yet score two hits. -/
def all_security_keywords : List String :=
  uniqueFirst (security_keywords_direct ++ security_keywords_traffic ++
    security_keywords_locations ++ security_keywords_nigerian)

/-! ## Store / aggregation layer
(`app/database/manager.py`, `app/core/sentiment_analyzer.py`)

Store reads are modelled as `Except String (List _)`: `Except.error` stands
for a sqlite exception on connect/query, `Except.ok rows` for the table
contents.  Timestamps are rational hours on an abstract clock; a query at
time `now` with window `hours` keeps rows with `now - hours < timestamp`,
mirroring `WHERE timestamp > datetime.now() - timedelta(hours=hours)`. -/

/-- Insertion step of the insertion sort by ascending key `f`. -/
def insertQ {α : Type} (f : α → ℚ) (x : α) : List α → List α
  | [] => [x]
  | y :: ys => if f x ≤ f y then x :: y :: ys else y :: insertQ f x ys

/-- Insertion sort by ascending key `f` (models SQL `ORDER BY ... ASC`;
descending orders use a negated key). -/
def sortQ {α : Type} (f : α → ℚ) : List α → List α
  | [] => []
  | x :: xs => insertQ f x (sortQ f xs)

/-- Python `round(x, 3)`.  (Exact half-thousandth ties differ: Python floats
round half to even; no verified property depends on a tie.) -/
def round3 (x : ℚ) : ℚ := (round (x * 1000) : ℤ) / 1000

/-- A row of the `alerts` table as read by `get_active_alerts`
(`id`/`created_at` are never read and omitted). -/
structure AlertRow where
  area : String
  message : String
  severity : String
  confidence : ℚ
  alert_type : String
  timestamp : ℚ
  resolved : Bool
deriving DecidableEq

/-- Embeds `DatabaseManager.get_recent_sentiment`: rows of the last `hours`
hours, newest first; any sqlite error is caught inside the method and
returned as the empty list. -/
def get_recent_sentiment (now hours : ℚ)
    (store : Except String (List SentimentData)) : List SentimentData :=
  match store with
  | Except.error _ => []
  | Except.ok rows =>
    sortQ (fun r => -r.timestamp) (rows.filter (fun r => now - hours < r.timestamp))

/-- Embeds `DatabaseManager.get_active_alerts`: unresolved alerts of the last
24 hours, newest first; any sqlite error is caught inside the method and
returned as the empty list. -/
def get_active_alerts (now : ℚ)
    (store : Except String (List AlertRow)) : List AlertRow :=
  match store with
  | Except.error _ => []
  | Except.ok rows =>
    sortQ (fun a => -a.timestamp)
      (rows.filter (fun a => now - 24 < a.timestamp ∧ a.resolved = false))

/-- The dictionary returned by `SentimentAnalyzer.get_current_status`
(`error` is `none` when the Python dict carries no `'error'` key). -/
structure StatusResult where
  overall_sentiment : ℚ
  raw_sentiment : ℚ
  confidence : ℚ
  total_sources : ℕ
  active_alerts : ℕ
  last_update : Option ℚ
  status : String
  error : Option String
deriving DecidableEq

/-- Embeds `SentimentAnalyzer.get_current_status`.  The Python `except`
branch (status `'error'`) is unreachable in the embedding because every
operation on its success path is total — in particular a failing store read
has already been converted to `[]` inside `get_recent_sentiment` /
`get_active_alerts`. -/
def get_current_status (now : ℚ)
    (sStore : Except String (List SentimentData))
    (aStore : Except String (List AlertRow)) : StatusResult :=
  let recent_data := get_recent_sentiment now 24 sStore
  let active_alerts := get_active_alerts now aStore
  if recent_data = [] then
    { overall_sentiment := 0, raw_sentiment := 0, confidence := 0,
      total_sources := 0, active_alerts := 0, last_update := none,
      status := "no_data", error := none }
  else
    { overall_sentiment := round3 (meanQ (recent_data.map (·.adjusted_sentiment))),
      raw_sentiment := round3 (meanQ (recent_data.map (·.raw_sentiment))),
      confidence := round3 (meanQ (recent_data.map (·.confidence))),
      total_sources := recent_data.length,
      active_alerts := active_alerts.length,
      last_update := recent_data.head?.map (·.timestamp),
      status := "healthy", error := none }

/-- One output row of `DatabaseManager.get_area_analysis`. -/
structure AreaRow where
  area : String
  sentiment : ℚ
  sources : ℕ
  confidence : ℚ
  crime_reports : ℕ
  traffic_reports : ℕ
deriving DecidableEq

/-- The per-group SQL aggregates of `get_area_analysis` (pre-rounding):
`AVG(adjusted_sentiment)`, `COUNT(*)`, `AVG(confidence)` and the two
category counts over the rows of one location. -/
def areaStat (rows : List SentimentData) (a : String) : AreaRow :=
  let g := rows.filter (fun r => r.location = a)
  { area := a
  , sentiment := meanQ (g.map (·.adjusted_sentiment))
  , sources := g.length
  , confidence := meanQ (g.map (·.confidence))
  , crime_reports := (g.filter (fun r => r.category = "crime")).length
  , traffic_reports := (g.filter (fun r => r.category = "traffic")).length }

/-- Rounding of sentiment and confidence to 3 decimals during the Python
result-dict construction of `get_area_analysis`. -/
def roundAreaRow (s : AreaRow) : AreaRow :=
  { s with sentiment := round3 s.sentiment, confidence := round3 s.confidence }

/-- Embeds `DatabaseManager.get_area_analysis`: in-window rows with a known
area, grouped by `location`, aggregated, sorted ascending by the unrounded
mean adjusted sentiment (`ORDER BY sentiment ASC`), then rounded for output;
any sqlite error is caught inside the method and returned as the empty
list. -/
def get_area_analysis (now hours : ℚ)
    (store : Except String (List SentimentData)) : List AreaRow :=
  match store with
  | Except.error _ => []
  | Except.ok rows =>
    let inWin := rows.filter
      (fun r => now - hours < r.timestamp ∧ r.location ≠ "Unknown")
    let areas := uniqueFirst (inWin.map (·.location))
    (sortQ (fun s => s.sentiment) (areas.map (areaStat inWin))).map roundAreaRow

/-- The records behind area `a` in a window, stated directly from the raw
table — the reference value the per-area breakdown is checked against. -/
def windowGroup (now hours : ℚ) (rows : List SentimentData) (a : String) :
    List SentimentData :=
  rows.filter (fun r => now - hours < r.timestamp ∧ r.location = a)

/-- Concrete table for the aggregation witnesses: two current `"Yaba"` rows,
one current `"Ikeja"` row, one current `"Unknown"` row, one stale row. -/
def sampleRows : List SentimentData :=
  [mkRecord "Yaba" (-(1/2)) 90, mkRecord "Yaba" (-(7/10)) 91,
   mkRecord "Ikeja" (1/5) 92, mkRecord "Unknown" (-1) 93,
   mkRecord "Ikeja" (-1) 10]

/-- Concrete table whose rows all fall outside a 24-hour window ending at
time `100`. -/
def staleRows : List SentimentData := [mkRecord "Yaba" (-(1/2)) 10]

/-! ## Theorems about the bias corrector -/

/-- Helper: `dict.get` falls back to the default when the key is absent. -/
theorem lookupD_of_not_mem (m : List (String × ℚ)) (k : String) (d : ℚ)
    (h : k ∉ m.map Prod.fst) : lookupD m k d = d := by
  have hf : m.find? (fun p => p.1 == k) = none := by
    rw [List.find?_eq_none]
    intro p hp
    simp only [beq_iff_eq]
    intro hk
    exact h (hk ▸ List.mem_map_of_mem Prod.fst hp)
  simp [lookupD, hf]

/-- Claim C2: for every source string and every raw score in `[-1, 1]`,
`adjust_sentiment raw source` lies in `[-1, 1]`. -/
theorem adjust_sentiment_clamped (source : String) (raw : ℚ)
    (h1 : -1 ≤ raw) (h2 : raw ≤ 1) :
    -1 ≤ adjust_sentiment raw source ∧ adjust_sentiment raw source ≤ 1 := by
  unfold adjust_sentiment
  exact ⟨le_max_left _ _, max_le (by norm_num) (min_le_left _ _)⟩

/-- Witness for claim C2 at `raw = 1/2`, `source = "twitter"`. -/
theorem adjust_sentiment_clamped_witness :
    (-1 ≤ (1/2 : ℚ) ∧ (1/2 : ℚ) ≤ 1) ∧
      (-1 ≤ adjust_sentiment (1/2) "twitter" ∧ adjust_sentiment (1/2) "twitter" ≤ 1) :=
  ⟨⟨by norm_num, by norm_num⟩,
    adjust_sentiment_clamped "twitter" (1/2) (by norm_num) (by norm_num)⟩

/-- Helper: clamping to `[-1, 1]` is the identity on values already in range. -/
theorem clamp_id {x : ℚ} (h1 : -1 ≤ x) (h2 : x ≤ 1) : max (-1) (min 1 x) = x := by
  rw [min_eq_right h2, max_eq_right h1]

/-- Claim C3: the two documented test points evaluate exactly as the spec states:
`adjust_sentiment (-0.6) "twitter" = -0.525` (negative branch, factor `0.7`,
baseline `-0.35`) and `adjust_sentiment 0 "news" = 0.045` (non-negative boost
branch, `0.45 * 1.1 - 0.45`). -/
theorem adjust_sentiment_test_points :
    adjust_sentiment (-(3/5)) "twitter" = -(21/40) ∧
      adjust_sentiment 0 "news" = 9/200 := by
  constructor
  · have h : adjust_sentiment (-(3/5)) "twitter"
        = max (-1) (min 1 ((-(3/5) - -(7/20)) * (7/10) + -(7/20))) := by
      simp only [adjust_sentiment]
      rw [show lookupD adjustment_factors "twitter" 1 = 7/10 from rfl,
        show lookupD baseline_negativity "twitter" (-(1/5)) = -(7/20) from rfl,
        if_pos (by norm_num : (-(3/5) : ℚ) < 0)]
    rw [h, show ((-(3/5) - -(7/20)) * (7/10) + -(7/20) : ℚ) = -(21/40) by norm_num]
    exact clamp_id (by norm_num) (by norm_num)
  · have h : adjust_sentiment 0 "news"
        = max (-1) (min 1 ((0 - -(9/20)) * (11/10) + -(9/20))) := by
      simp only [adjust_sentiment]
      rw [show lookupD baseline_negativity "news" (-(1/5)) = -(9/20) from rfl,
        if_neg (by norm_num : ¬ ((0 : ℚ) < 0))]
    rw [h, show ((0 - -(9/20)) * (11/10) + -(9/20) : ℚ) = 9/200 by norm_num]
    exact clamp_id (by norm_num) (by norm_num)

/-- Claim C9: the correction is total beyond the spec's stated domain — for
every raw score (including values outside `[-1, 1]`) and every source string
the result is clamped into `[-1, 1]`, and an unknown source resolves to the
default calibration constants (factor `1.0`, baseline `-0.2`).  The embedding
is total by construction, exactly as the Python (`dict.get` with defaults and
an unconditional clamp) cannot raise. -/
theorem adjust_sentiment_total :
    (∀ (raw : ℚ) (source : String),
        -1 ≤ adjust_sentiment raw source ∧ adjust_sentiment raw source ≤ 1) ∧
    (∀ source : String, source ∉ adjustment_factors.map Prod.fst →
        lookupD adjustment_factors source 1 = 1 ∧
        lookupD baseline_negativity source (-(1/5)) = -(1/5)) := by
  constructor
  · intro raw source
    unfold adjust_sentiment
    exact ⟨le_max_left _ _, max_le (by norm_num) (min_le_left _ _)⟩
  · intro source hs
    refine ⟨lookupD_of_not_mem _ _ _ hs, lookupD_of_not_mem _ _ _ ?_⟩
    simpa [adjustment_factors, baseline_negativity] using hs

/-- Witness for claim C9 at `raw = 5` (outside `[-1,1]`) and the unknown
source `"reddit"`. -/
theorem adjust_sentiment_total_witness :
    (-1 ≤ adjust_sentiment 5 "reddit" ∧ adjust_sentiment 5 "reddit" ≤ 1) ∧
      ("reddit" ∉ adjustment_factors.map Prod.fst ∧
        lookupD adjustment_factors "reddit" 1 = 1 ∧
        lookupD baseline_negativity "reddit" (-(1/5)) = -(1/5)) :=
  ⟨adjust_sentiment_total.1 5 "reddit", by
    have h : "reddit" ∉ adjustment_factors.map Prod.fst := by decide
    exact ⟨h, (adjust_sentiment_total.2 "reddit" h).1,
      (adjust_sentiment_total.2 "reddit" h).2⟩⟩

/-- Claim C10: for every source whose adjustment factor resolves to `1`
(`"community"`, and any unknown source) and every raw score in `[-1, 0)`,
the negative branch `(raw - baseline) * 1 + baseline` is the identity, so
`adjust_sentiment raw source = raw`. -/
theorem adjust_sentiment_factor_one_id (source : String) (raw : ℚ)
    (hf : lookupD adjustment_factors source 1 = 1)
    (h1 : -1 ≤ raw) (h0 : raw < 0) :
    adjust_sentiment raw source = raw := by
  have h2 : raw ≤ 1 := le_trans (le_of_lt h0) (by norm_num)
  simp only [adjust_sentiment]
  rw [hf, if_pos h0]
  rw [show (raw - lookupD baseline_negativity source (-(1/5))) * 1
      + lookupD baseline_negativity source (-(1/5)) = raw by ring]
  exact clamp_id h1 h2

/-- Witness for claim C10 at `source = "community"`, `raw = -1/2`. -/
theorem adjust_sentiment_factor_one_id_witness :
    (lookupD adjustment_factors "community" 1 = 1 ∧
        -1 ≤ (-(1/2) : ℚ) ∧ (-(1/2) : ℚ) < 0) ∧
      adjust_sentiment (-(1/2)) "community" = -(1/2) :=
  ⟨⟨rfl, by norm_num, by norm_num⟩,
    adjust_sentiment_factor_one_id "community" (-(1/2)) rfl (by norm_num) (by norm_num)⟩

/-! ## Theorems about the alert generator -/

/-- Helper: membership in the accumulator pass. -/
theorem mem_uniqueFirstAux (a : String) :
    ∀ (l seen : List String), a ∈ uniqueFirstAux seen l ↔ a ∈ l ∧ a ∉ seen := by
  intro l
  induction l with
  | nil => intro seen; simp [uniqueFirstAux]
  | cons x xs ih =>
    intro seen
    simp only [uniqueFirstAux]
    by_cases hx : x ∈ seen
    · rw [if_pos hx, ih seen]
      simp only [List.mem_cons]
      constructor
      · rintro ⟨h1, h2⟩
        exact ⟨Or.inr h1, h2⟩
      · rintro ⟨h1 | h1, h2⟩
        · exact absurd (h1 ▸ hx) h2
        · exact ⟨h1, h2⟩
    · rw [if_neg hx]
      simp only [List.mem_cons, ih (x :: seen), List.mem_cons]
      constructor
      · rintro (rfl | ⟨h1, h2⟩)
        · exact ⟨Or.inl rfl, hx⟩
        · exact ⟨Or.inr h1, fun hs => h2 (Or.inr hs)⟩
      · rintro ⟨h1 | h1, h2⟩
        · exact Or.inl h1
        · by_cases hax : a = x
          · exact Or.inl hax
          · exact Or.inr ⟨h1, fun hs => hs.elim hax h2⟩

/-- Helper: membership in `uniqueFirst` agrees with membership in the list. -/
theorem mem_uniqueFirst (a : String) (l : List String) :
    a ∈ uniqueFirst l ↔ a ∈ l := by
  rw [uniqueFirst, mem_uniqueFirstAux]
  simp

/-- Helper: the accumulator pass never repeats a value. -/
theorem nodup_uniqueFirstAux :
    ∀ (l seen : List String), (uniqueFirstAux seen l).Nodup := by
  intro l
  induction l with
  | nil => intro seen; simp [uniqueFirstAux]
  | cons x xs ih =>
    intro seen
    simp only [uniqueFirstAux]
    by_cases hx : x ∈ seen
    · rw [if_pos hx]
      exact ih seen
    · rw [if_neg hx]
      refine List.nodup_cons.mpr ⟨?_, ih (x :: seen)⟩
      intro hmem
      exact ((mem_uniqueFirstAux x xs (x :: seen)).mp hmem).2 (List.mem_cons_self x seen)

/-- Helper: `uniqueFirst` has no duplicates. -/
theorem nodup_uniqueFirst (l : List String) : (uniqueFirst l).Nodup :=
  nodup_uniqueFirstAux l []

/-- Helper: an alert produced for an area carries that area name. -/
theorem alertForArea_area (df : List SentimentData) (a : String) (b : SecurityAlert)
    (h : alertForArea df a = some b) : b.area = a := by
  simp only [alertForArea] at h
  split at h
  · exact absurd h (by simp)
  · split at h
    · exact absurd h (by simp)
    · split at h
      · injection h with h'
        subst h'
        rfl
      · split at h
        · injection h with h'
          subst h'
          rfl
        · exact absurd h (by simp)

/-- Helper: filtering a `filterMap` over a duplicate-free list of areas by one
area keeps exactly the alert (if any) produced for that area. -/
theorem filterMap_filter_area (f : String → Option SecurityAlert)
    (hf : ∀ a b, f a = some b → b.area = a) :
    ∀ (l : List String), l.Nodup → ∀ A : String,
      (l.filterMap f).filter (fun al => al.area = A) =
        if A ∈ l then (f A).toList else [] := by
  intro l
  induction l with
  | nil => intro _ A; simp
  | cons x xs ih =>
    intro hnd A
    obtain ⟨hx, hxs⟩ := List.nodup_cons.mp hnd
    rw [List.filterMap_cons]
    cases hfx : f x with
    | none =>
      rw [ih hxs A]
      by_cases hAx : A = x
      · subst hAx
        simp [hfx, hx]
      · simp [List.mem_cons, hAx]
    | some b =>
      have hb : b.area = x := hf x b hfx
      rw [List.filter_cons]
      by_cases hAx : A = x
      · subst hAx
        rw [ih hxs A]
        simp [hb, hx, hfx]
      · rw [ih hxs A]
        simp [hb, hAx, Ne.symm hAx, List.mem_cons]

/-- Claim C1: with the default configuration (`minimum_sources = 3`,
`high_threshold = -1/2`), an area group of exactly two records never yields an
alert, and a non-`"Unknown"` area group of exactly three records whose mean
adjusted sentiment is at or below the high threshold yields exactly one alert
of severity `"high"`. -/
theorem alert_min_sources_and_high (batch : List SentimentData) (A : String) :
    ((batch.filter (fun r => r.location = A)).length = minimum_sources - 1 →
      (generate_alerts batch).filter (fun al => al.area = A) = []) ∧
    (A ≠ "Unknown" →
      (batch.filter (fun r => r.location = A)).length = minimum_sources →
      meanQ ((batch.filter (fun r => r.location = A)).map (·.adjusted_sentiment))
        ≤ high_threshold →
      ∃ al, (generate_alerts batch).filter (fun al => al.area = A) = [al] ∧
        al.severity = "high") := by
  constructor
  · intro hlen
    have hne : batch ≠ [] := by
      intro h
      subst h
      simp [minimum_sources] at hlen
    unfold generate_alerts
    rw [if_neg hne,
      filterMap_filter_area _ (alertForArea_area batch) _ (nodup_uniqueFirst _) A]
    have hnone : alertForArea batch A = none := by
      by_cases hU : A = "Unknown"
      · simp [alertForArea, hU]
      · have hlt : (batch.filter (fun r => r.location = A)).length < minimum_sources := by
          rw [hlen]
          simp [minimum_sources]
        simp [alertForArea, hU, hlt]
    simp [hnone]
  · intro hU hlen havg
    have hne : batch ≠ [] := by
      intro h
      subst h
      simp [minimum_sources] at hlen
    have hfil : batch.filter (fun r => r.location = A) ≠ [] := by
      intro h
      rw [h] at hlen
      simp [minimum_sources] at hlen
    have hmem : A ∈ batch.map (·.location) := by
      obtain ⟨r, hr⟩ := List.exists_mem_of_ne_nil _ hfil
      have hrf := List.mem_filter.mp hr
      exact List.mem_map.mpr ⟨r, hrf.1, by simpa using hrf.2⟩
    have hnotlt : ¬ (batch.filter (fun r => r.location = A)).length < minimum_sources := by
      rw [hlen]
      exact lt_irrefl _
    unfold generate_alerts
    rw [if_neg hne,
      filterMap_filter_area _ (alertForArea_area batch) _ (nodup_uniqueFirst _) A,
      if_pos ((mem_uniqueFirst A _).mpr hmem)]
    have hsome : alertForArea batch A = some
        { area := A
        , message := generate_alert_message A
            (valueCountsMax ((batch.filter (fun r => r.location = A)).map (·.category)))
            (meanQ ((batch.filter (fun r => r.location = A)).map (·.adjusted_sentiment)))
            (batch.filter (fun r => r.location = A)).length
        , severity := "high"
        , confidence := meanQ ((batch.filter (fun r => r.location = A)).map (·.confidence))
        , alert_type :=
            valueCountsMax ((batch.filter (fun r => r.location = A)).map (·.category)) } := by
      simp only [alertForArea]
      rw [if_neg hU, if_neg hnotlt, if_pos havg]
    rw [hsome]
    exact ⟨_, rfl, rfl⟩

/-- Witness for claim C1 on `sampleBatch`: the two-record `"Lekki"` group is
suppressed and the three-record `"Yaba"` group (mean `-3/5`) raises one high
alert. -/
theorem alert_min_sources_and_high_witness :
    ((sampleBatch.filter (fun r => r.location = "Lekki")).length = minimum_sources - 1 ∧
      (generate_alerts sampleBatch).filter (fun al => al.area = "Lekki") = []) ∧
    ("Yaba" ≠ "Unknown" ∧
      (sampleBatch.filter (fun r => r.location = "Yaba")).length = minimum_sources ∧
      meanQ ((sampleBatch.filter (fun r => r.location = "Yaba")).map (·.adjusted_sentiment))
        ≤ high_threshold ∧
      ∃ al, (generate_alerts sampleBatch).filter (fun al => al.area = "Yaba") = [al] ∧
        al.severity = "high") := by
  have h1 : (sampleBatch.filter (fun r => r.location = "Lekki")).length
      = minimum_sources - 1 := by decide
  have hU : "Yaba" ≠ "Unknown" := by decide
  have h2 : (sampleBatch.filter (fun r => r.location = "Yaba")).length
      = minimum_sources := by decide
  have h3 : meanQ ((sampleBatch.filter (fun r => r.location = "Yaba")).map
      (·.adjusted_sentiment)) ≤ high_threshold := by
    have e : sampleBatch.filter (fun r => r.location = "Yaba")
        = [mkRecord "Yaba" (-(1/2)) 3, mkRecord "Yaba" (-(3/5)) 4,
           mkRecord "Yaba" (-(7/10)) 5] := by
      simp [sampleBatch, mkRecord]
    rw [e]
    norm_num [mkRecord, meanQ, high_threshold]
  exact ⟨⟨h1, (alert_min_sources_and_high sampleBatch "Lekki").1 h1⟩,
    hU, h2, h3, (alert_min_sources_and_high sampleBatch "Yaba").2 hU h2 h3⟩

/-! ## Theorems about the text classifier -/

/-- Claim C6: the category priority order puts `traffic` first, so any text
hitting both a traffic keyword and a crime keyword classifies as
`"traffic"`. -/
theorem categorize_traffic_priority (text : String)
    (ht : anyKw traffic_words (lowerStr text) = true)
    (hc : anyKw crime_words (lowerStr text) = true) :
    categorize_security_issue text = "traffic" := by
  simp only [categorize_security_issue]
  rw [if_pos ht]

/-- Witness for claim C6 at the spec's literal text
`"robbery during traffic jam"`. -/
theorem categorize_traffic_priority_witness :
    anyKw traffic_words (lowerStr "robbery during traffic jam") = true ∧
      anyKw crime_words (lowerStr "robbery during traffic jam") = true ∧
      categorize_security_issue "robbery during traffic jam" = "traffic" := by
  have ht : anyKw traffic_words (lowerStr "robbery during traffic jam") = true := by decide
  have hc : anyKw crime_words (lowerStr "robbery during traffic jam") = true := by decide
  exact ⟨ht, hc, categorize_traffic_priority _ ht hc⟩

/-- Counterexample to claim C4: the text `"road"` contains exactly one
distinct keyword of the 4-category table (`"road"` itself), yet
`is_security_relevant` returns `true`, because `"road"` is listed in both the
`'traffic'` and `'locations'` categories and therefore scores two hits. -/
theorem security_relevant_single_keyword_cex :
    (all_security_keywords.filter
        (fun w => strContains (lowerStr "road") w)) = ["road"] ∧
      total_matches "road" = 2 ∧
      is_security_relevant "road" = true := by
  refine ⟨by decide, by decide, by decide⟩

/-- Claim C4 (amended): `is_security_relevant` is true iff the per-category
hit total is at least 2, where a keyword listed in several categories counts
once per category; consequently any text with at most one hit yields `false`
(but a text with exactly one distinct keyword may still yield `true`). -/
theorem security_relevant_iff (text : String) :
    (is_security_relevant text = true ↔ 2 ≤ total_matches text) ∧
      (total_matches text ≤ 1 → is_security_relevant text = false) := by
  constructor
  · simp [is_security_relevant]
  · intro h
    simp only [is_security_relevant, decide_eq_false_iff_not]
    omega

/-- Witness for claim C4 at `"crime"` (a single hit, hence not relevant). -/
theorem security_relevant_iff_witness :
    total_matches "crime" ≤ 1 ∧ is_security_relevant "crime" = false :=
  ⟨by decide, (security_relevant_iff "crime").2 (by decide)⟩

/-- Counterexample to claim C5: the text `"gbege baba"` has exactly one hit
in each dialect indicator list (`"gbege"` for pidgin, `"baba"` for yoruba),
a tie, yet `detect_nigerian_language` returns `"yoruba"`, not the primary
language `"english"` the claim requires for ties. -/
theorem detect_language_tie_cex :
    countKw pidgin_indicators (lowerStr "gbege baba") = 1 ∧
      countKw yoruba_indicators (lowerStr "gbege baba") = 1 ∧
      detect_nigerian_language "gbege baba" = "yoruba" ∧
      detect_nigerian_language "gbege baba" ≠ "english" := by
  refine ⟨by decide, by decide, by decide, by decide⟩

/-- Claim C5 (amended): `detect_nigerian_language` returns `"pidgin"` when the
pidgin hit count strictly exceeds the yoruba count, `"yoruba"` whenever the
yoruba count is positive and the pidgin count does not strictly exceed it
(so ties with positive counts give `"yoruba"`, not `"english"`), and
`"english"` when both counts are zero. -/
theorem detect_nigerian_language_spec (text : String) :
    (countKw yoruba_indicators (lowerStr text) < countKw pidgin_indicators (lowerStr text) →
      detect_nigerian_language text = "pidgin") ∧
    (countKw pidgin_indicators (lowerStr text) ≤ countKw yoruba_indicators (lowerStr text) →
      0 < countKw yoruba_indicators (lowerStr text) →
      detect_nigerian_language text = "yoruba") ∧
    (countKw pidgin_indicators (lowerStr text) = 0 →
      countKw yoruba_indicators (lowerStr text) = 0 →
      detect_nigerian_language text = "english") := by
  refine ⟨?_, ?_, ?_⟩
  · intro h
    have hp : 0 < countKw pidgin_indicators (lowerStr text) :=
      lt_of_le_of_lt (Nat.zero_le _) h
    simp only [detect_nigerian_language]
    rw [if_pos ⟨h, hp⟩]
  · intro hle hy
    simp only [detect_nigerian_language]
    rw [if_neg (fun hand => absurd hand.1 (not_lt.mpr hle)), if_pos hy]
  · intro hp hy
    simp only [detect_nigerian_language]
    rw [if_neg (fun hand => by omega), if_neg (by omega)]

/-- Witness for claim C5: a strict pidgin majority, the claim's
one-pidgin-two-yoruba case, and a no-hit text, each through the theorem. -/
theorem detect_nigerian_language_spec_witness :
    detect_nigerian_language "gbege kasala baba" = "pidgin" ∧
      detect_nigerian_language "gbege baba iya" = "yoruba" ∧
      detect_nigerian_language "hello" = "english" :=
  ⟨(detect_nigerian_language_spec "gbege kasala baba").1 (by decide),
    (detect_nigerian_language_spec "gbege baba iya").2.1 (by decide) (by decide),
    (detect_nigerian_language_spec "hello").2.2 (by decide) (by decide)⟩

/-! ## Theorems about the aggregation and status queries -/

/-- Counterexample to claim C7: a failing store read is caught inside
`DatabaseManager.get_recent_sentiment` and surfaces exactly like an empty
window — the status result for a failing store *equals* the one for an empty
store, with status `"no_data"` and no error field, so callers cannot
distinguish a query failure from an empty window. -/
theorem status_error_indistinguishable :
    get_current_status 100 (Except.error "database is locked") (Except.ok []) =
        get_current_status 100 (Except.ok []) (Except.ok []) ∧
      (get_current_status 100 (Except.error "database is locked")
          (Except.ok [])).status = "no_data" ∧
      (get_current_status 100 (Except.error "database is locked")
          (Except.ok [])).error = none :=
  ⟨rfl, rfl, rfl⟩

/-- Claim C7 (amended): a window containing no records yields the explicit
`"no_data"` state (not a zero-valued healthy state); however a store read
failure is swallowed into an empty list by the store layer, so it yields the
very same `"no_data"` result as an empty window instead of a distinguishable
error result. -/
theorem status_no_data_and_swallowed_error (now : ℚ) (rows : List SentimentData)
    (aStore : Except String (List AlertRow))
    (hold : ∀ r ∈ rows, r.timestamp ≤ now - 24) :
    (get_current_status now (Except.ok rows) aStore).status = "no_data" ∧
      (get_current_status now (Except.ok rows) aStore).overall_sentiment = 0 ∧
      (get_current_status now (Except.ok rows) aStore).total_sources = 0 ∧
      ∀ e : String, get_current_status now (Except.error e) aStore =
        get_current_status now (Except.ok []) aStore := by
  have hfil : rows.filter (fun r => now - 24 < r.timestamp) = [] := by
    rw [List.filter_eq_nil_iff]
    intro r hr
    simp only [decide_eq_true_eq, not_lt]
    linarith [hold r hr]
  have hrec : get_recent_sentiment now 24 (Except.ok rows) = [] := by
    simp [get_recent_sentiment, hfil, sortQ]
  refine ⟨?_, ?_, ?_, fun e => rfl⟩ <;> simp [get_current_status, hrec]

/-- Witness for claim C7 on `staleRows` (all rows outside the 24-hour window
ending at time 100). -/
theorem status_no_data_and_swallowed_error_witness :
    (∀ r ∈ staleRows, r.timestamp ≤ (100 : ℚ) - 24) ∧
      (get_current_status 100 (Except.ok staleRows) (Except.ok [])).status
        = "no_data" ∧
      get_current_status 100 (Except.error "disk failure") (Except.ok []) =
        get_current_status 100 (Except.ok []) (Except.ok []) := by
  have h : ∀ r ∈ staleRows, r.timestamp ≤ (100 : ℚ) - 24 := by
    intro r hr
    simp only [staleRows, List.mem_singleton] at hr
    subst hr
    norm_num [mkRecord]
  exact ⟨h, (status_no_data_and_swallowed_error 100 staleRows (Except.ok []) h).1,
    (status_no_data_and_swallowed_error 100 staleRows (Except.ok []) h).2.2.2
      "disk failure"⟩

/-- Helper: inserting with `insertQ` permutes the cons. -/
theorem perm_insertQ {α : Type} (f : α → ℚ) (x : α) (l : List α) :
    List.Perm (insertQ f x l) (x :: l) := by
  induction l with
  | nil => simp [insertQ]
  | cons y ys ih =>
    simp only [insertQ]
    by_cases h : f x ≤ f y
    · rw [if_pos h]
    · rw [if_neg h]
      exact (ih.cons y).trans (List.Perm.swap x y ys)

/-- Helper: `sortQ` permutes its input. -/
theorem perm_sortQ {α : Type} (f : α → ℚ) (l : List α) :
    List.Perm (sortQ f l) l := by
  induction l with
  | nil => simp [sortQ]
  | cons x xs ih => exact (perm_insertQ f x (sortQ f xs)).trans (ih.cons x)

/-- Helper: `insertQ` preserves sortedness by the key. -/
theorem pairwise_insertQ {α : Type} (f : α → ℚ) (x : α) (l : List α)
    (h : l.Pairwise (fun a b => f a ≤ f b)) :
    (insertQ f x l).Pairwise (fun a b => f a ≤ f b) := by
  induction l with
  | nil => simp [insertQ]
  | cons y ys ih =>
    rw [List.pairwise_cons] at h
    obtain ⟨hy, hys⟩ := h
    simp only [insertQ]
    by_cases hxy : f x ≤ f y
    · rw [if_pos hxy]
      refine List.Pairwise.cons ?_ (List.Pairwise.cons hy hys)
      intro b hb
      rcases List.mem_cons.mp hb with rfl | hb
      · exact hxy
      · exact le_trans hxy (hy b hb)
    · rw [if_neg hxy]
      refine List.Pairwise.cons ?_ (ih hys)
      intro b hb
      rcases List.mem_cons.mp ((perm_insertQ f x ys).mem_iff.mp hb) with rfl | hb
      · exact le_of_not_le hxy
      · exact hy b hb

/-- Helper: `sortQ` sorts ascending by the key. -/
theorem pairwise_sortQ {α : Type} (f : α → ℚ) (l : List α) :
    (sortQ f l).Pairwise (fun a b => f a ≤ f b) := by
  induction l with
  | nil => simp [sortQ]
  | cons x xs ih => exact pairwise_insertQ f x _ ih

/-- Helper: `round3` is monotone, so sorting by the unrounded SQL aggregate
also sorts the rounded output. -/
theorem round3_mono {a b : ℚ} (h : a ≤ b) : round3 a ≤ round3 b := by
  have h1 : round (a * 1000) ≤ round (b * 1000) := by
    rw [round_eq, round_eq]
    exact Int.floor_mono (by linarith)
  have h2 : ((round (a * 1000) : ℤ) : ℚ) ≤ ((round (b * 1000) : ℤ) : ℚ) := by
    exact_mod_cast h1
  unfold round3
  linarith

/-- Helper: filtering a mapped list. -/
theorem filter_map_comm {α β : Type} (g : α → β) (p : β → Bool) (l : List α) :
    (l.map g).filter p = (l.filter (fun x => p (g x))).map g := by
  induction l with
  | nil => rfl
  | cons x xs ih =>
    simp only [List.map_cons, List.filter_cons]
    cases h : p (g x) <;> simp [h, ih]

/-- Helper: filtering a duplicate-free list for one of its members. -/
theorem filter_eq_singleton_of_nodup {l : List String} {a : String}
    (hnd : l.Nodup) (ha : a ∈ l) : l.filter (fun x => x = a) = [a] := by
  induction l with
  | nil => cases ha
  | cons x xs ih =>
    obtain ⟨hx, hxs⟩ := List.nodup_cons.mp hnd
    rcases List.mem_cons.mp ha with rfl | hmem
    · have hnil : xs.filter (fun y => y = a) = [] := by
        rw [List.filter_eq_nil_iff]
        intro b hb
        simp only [decide_eq_true_eq]
        rintro rfl
        exact hx hb
      simp [List.filter_cons, hnil]
    · have hax : a ≠ x := fun h => hx (h ▸ hmem)
      rw [List.filter_cons, if_neg (by simp [Ne.symm hax])]
      exact ih hxs hmem

/-- Helper: the area of a rounded group row. -/
theorem roundAreaRow_area (s : AreaRow) : (roundAreaRow s).area = s.area := rfl

/-- Helper: the area of a freshly aggregated group row. -/
theorem areaStat_area (df : List SentimentData) (x : String) :
    (areaStat df x).area = x := rfl

/-- Helper: restricting the in-window known-area rows to one non-`"Unknown"`
area is the same as the group taken directly from the table. -/
theorem windowGroup_eq (now hours : ℚ) (rows : List SentimentData) (a : String)
    (ha : a ≠ "Unknown") :
    (rows.filter
        (fun r => now - hours < r.timestamp ∧ r.location ≠ "Unknown")).filter
      (fun r => r.location = a) = windowGroup now hours rows a := by
  rw [List.filter_filter]
  unfold windowGroup
  apply List.filter_congr
  intro r _
  by_cases h1 : now - hours < r.timestamp <;> by_cases h2 : r.location = a <;>
    simp [h1, h2, ha]

/-- Claim C8: the per-area breakdown excludes `"Unknown"` areas, is sorted
ascending by mean adjusted sentiment, and carries per group exactly one row
holding the rounded mean adjusted sentiment, the record count, the rounded
mean confidence and the crime/traffic category counts of that area's
in-window records. -/
theorem area_breakdown_spec (now hours : ℚ) (rows : List SentimentData)
    (a : String) (ha : a ≠ "Unknown")
    (hex : ∃ r ∈ rows, now - hours < r.timestamp ∧ r.location = a) :
    (∀ s ∈ get_area_analysis now hours (Except.ok rows), s.area ≠ "Unknown") ∧
      (get_area_analysis now hours (Except.ok rows)).Pairwise
        (fun s t => s.sentiment ≤ t.sentiment) ∧
      ((get_area_analysis now hours (Except.ok rows)).filter
          (fun s => s.area = a)).length = 1 ∧
      ∀ s ∈ get_area_analysis now hours (Except.ok rows), s.area = a →
        s.sentiment = round3 (meanQ ((windowGroup now hours rows a).map
          (·.adjusted_sentiment))) ∧
        s.sources = (windowGroup now hours rows a).length ∧
        s.confidence = round3 (meanQ ((windowGroup now hours rows a).map
          (·.confidence))) ∧
        s.crime_reports = ((windowGroup now hours rows a).filter
          (fun r => r.category = "crime")).length ∧
        s.traffic_reports = ((windowGroup now hours rows a).filter
          (fun r => r.category = "traffic")).length := by
  set inWin := rows.filter
    (fun r => now - hours < r.timestamp ∧ r.location ≠ "Unknown") with hW
  set areas := uniqueFirst (inWin.map (·.location)) with hA
  set stats := areas.map (areaStat inWin) with hS
  have hres : get_area_analysis now hours (Except.ok rows)
      = (sortQ (fun s => s.sentiment) stats).map roundAreaRow := by
    rw [hS, hA, hW]
    rfl
  have hmem_res : ∀ s ∈ get_area_analysis now hours (Except.ok rows),
      ∃ x ∈ areas, s = roundAreaRow (areaStat inWin x) := by
    intro s hs
    rw [hres] at hs
    obtain ⟨t, ht, rfl⟩ := List.mem_map.mp hs
    have ht' : t ∈ stats := (perm_sortQ _ _).mem_iff.mp ht
    rw [hS] at ht'
    obtain ⟨x, hx, rfl⟩ := List.mem_map.mp ht'
    exact ⟨x, hx, rfl⟩
  have hareas_ne : ∀ x ∈ areas, x ≠ "Unknown" := by
    intro x hx
    rw [hA] at hx
    obtain ⟨r, hr, hrx⟩ := List.mem_map.mp ((mem_uniqueFirst x _).mp hx)
    rw [hW] at hr
    have h2 := (List.mem_filter.mp hr).2
    simp only [decide_eq_true_eq] at h2
    exact hrx ▸ h2.2
  have hnodup : areas.Nodup := by
    rw [hA]
    exact nodup_uniqueFirst _
  have hainA : a ∈ areas := by
    rw [hA, mem_uniqueFirst]
    obtain ⟨r, hr, hwin, hloc⟩ := hex
    refine List.mem_map.mpr ⟨r, ?_, hloc⟩
    rw [hW]
    refine List.mem_filter.mpr ⟨hr, ?_⟩
    simp only [decide_eq_true_eq]
    exact ⟨hwin, by rw [hloc]; exact ha⟩
  have hfilter_stats : stats.filter (fun s => s.area = a)
      = [areaStat inWin a] := by
    calc stats.filter (fun s => s.area = a)
        = (areas.filter (fun x => x = a)).map (areaStat inWin) := by
          rw [hS, filter_map_comm]
          rfl
      _ = [a].map (areaStat inWin) := by
          rw [filter_eq_singleton_of_nodup hnodup hainA]
      _ = [areaStat inWin a] := rfl
  have hg : inWin.filter (fun r => r.location = a)
      = windowGroup now hours rows a := by
    rw [hW]
    exact windowGroup_eq now hours rows a ha
  refine ⟨?_, ?_, ?_, ?_⟩
  · intro s hs
    obtain ⟨x, hx, rfl⟩ := hmem_res s hs
    rw [roundAreaRow_area, areaStat_area]
    exact hareas_ne x hx
  · rw [hres]
    exact (pairwise_sortQ (fun s => s.sentiment) stats).map roundAreaRow
      (fun s t hst => by simpa [roundAreaRow] using round3_mono hst)
  · rw [hres, filter_map_comm, List.length_map,
      List.Perm.length_eq ((perm_sortQ (fun s => s.sentiment) stats).filter _)]
    simp only [roundAreaRow_area]
    rw [hfilter_stats]
    rfl
  · intro s hs hsa
    obtain ⟨x, hx, rfl⟩ := hmem_res s hs
    have hxa : x = a := by
      rw [roundAreaRow_area, areaStat_area] at hsa
      exact hsa
    subst hxa
    refine ⟨?_, ?_, ?_, ?_, ?_⟩ <;> simp [roundAreaRow, areaStat, hg]

/-- Witness for claim C8 on `sampleRows` at time 100 with a 24-hour window,
applied to the two-record area `"Yaba"`. -/
theorem area_breakdown_spec_witness :
    ("Yaba" ≠ "Unknown" ∧
      (∃ r ∈ sampleRows, (100 : ℚ) - 24 < r.timestamp ∧ r.location = "Yaba")) ∧
      (∀ s ∈ get_area_analysis 100 24 (Except.ok sampleRows),
        s.area ≠ "Unknown") ∧
      ((get_area_analysis 100 24 (Except.ok sampleRows)).filter
          (fun s => s.area = "Yaba")).length = 1 := by
  have ha : ("Yaba" : String) ≠ "Unknown" := by decide
  have hex : ∃ r ∈ sampleRows, (100 : ℚ) - 24 < r.timestamp ∧
      r.location = "Yaba" := by
    refine ⟨mkRecord "Yaba" (-(1/2)) 90, by simp [sampleRows], ?_, rfl⟩
    norm_num [mkRecord]
  exact ⟨⟨ha, hex⟩,
    (area_breakdown_spec 100 24 sampleRows "Yaba" ha hex).1,
    (area_breakdown_spec 100 24 sampleRows "Yaba" ha hex).2.2.1⟩

end LagosSentiment
